import Mathlib

/-!
Verification of the UrlSummeriser pipeline (Supabase edge functions
`summerize_url/index.ts` and `process-url/index.ts`).

The text extractor is the regex chain at summerize_url/index.ts lines 141-147
(identical at process-url/index.ts lines 144-150):

  html.replace(script-block regex, '').replace(style-block regex, '')
      .replace(tag regex, '').replace(whitespace-run regex, ' ')
      .trim().substring(0, 8000)

Strings are modelled as `List Char`.  The global regex replaces are modelled
by fuel-indexed structural recursions (fuel = input length) that mirror the
left-to-right, leftmost-match scan of JavaScript `String.replace` with a
global regex: at each position the engine either matches (and continues after
the match) or emits the current character and retries at the next position.
-/

namespace UrlSummeriser

/-- Whitespace test modelling the JavaScript regex class `\s`
(space, tab, LF, VT, FF, CR, NBSP, and the Unicode space separators,
line/paragraph separators and BOM). -/
def isWs (c : Char) : Bool :=
  c == ' ' || c == '\t' || c == '\n' || c == '\r' ||
  c.val == 11 || c.val == 12 || c.val == 160 ||
  c.val == 0x1680 ||
  (decide (0x2000 ≤ c.val) && decide (c.val ≤ 0x200a)) ||
  c.val == 0x2028 || c.val == 0x2029 || c.val == 0x202f ||
  c.val == 0x205f || c.val == 0x3000 || c.val == 0xfeff

/-- The suffix just after the first `'>'` of the list (`none` when there is
no `'>'`).  This models the regex fragment `[^>]*>`: the greedy run of
non-`>` characters followed by `>` consumes exactly through the first `>`. -/
def splitFirstGt : List Char → Option (List Char)
  | [] => none
  | c :: cs => if c == '>' then some cs else splitFirstGt cs

/-- Case-insensitive "starts with" against a lowercase pattern,
modelling the `i` regex flag on a literal. -/
def ciStarts : List Char → List Char → Bool
  | [], _ => true
  | _ :: _, [] => false
  | p :: ps, c :: cs => (c.toLower == p) && ciStarts ps cs

/-- The suffix just after the first (case-insensitive) occurrence of `pat`;
`none` when `pat` does not occur.  This models the lazy regex fragment
`[\s\S]*?pat`: the lazy run stops at the first occurrence of `pat`. -/
def dropThroughCI (pat : List Char) : List Char → Option (List Char)
  | [] => none
  | c :: cs =>
    if ciStarts pat (c :: cs) then some (List.drop pat.length (c :: cs))
    else dropThroughCI pat cs

def scriptOpen : List Char := ['s', 'c', 'r', 'i', 'p', 't']

def scriptClose : List Char := ['<', '/', 's', 'c', 'r', 'i', 'p', 't', '>']

def styleOpen : List Char := ['s', 't', 'y', 'l', 'e']

def styleClose : List Char := ['<', '/', 's', 't', 'y', 'l', 'e', '>']

/-- One global replace of `/<opn[^>]*>[\s\S]*?cls/gi` by the empty string
(with `opn` the lowercase tag name and `cls` the lowercase closing tag).
At a position starting `<opn`, the engine consumes through the first `'>'`
(the greedy `[^>]*>` admits no other split) and then through the first
case-insensitive occurrence of `cls`; if either is missing the match at this
position fails and scanning resumes at the next position.  Fuel decreases at
every step and the list shrinks at least as fast, so fuel = length suffices. -/
def removeBlocksF (opn cls : List Char) : Nat → List Char → List Char
  | 0, l => l
  | _ + 1, [] => []
  | f + 1, c :: cs =>
    if c == '<' && ciStarts opn cs then
      match splitFirstGt (List.drop opn.length cs) with
      | some afterOpen =>
        match dropThroughCI cls afterOpen with
        | some rest => removeBlocksF opn cls f rest
        | none => c :: removeBlocksF opn cls f cs
      | none => c :: removeBlocksF opn cls f cs
    else c :: removeBlocksF opn cls f cs

/-- `.replace(/<script[^>]*>[\s\S]*?<\/script>/gi, '')` -/
def removeScript (l : List Char) : List Char :=
  removeBlocksF scriptOpen scriptClose l.length l

/-- `.replace(/<style[^>]*>[\s\S]*?<\/style>/gi, '')` -/
def removeStyle (l : List Char) : List Char :=
  removeBlocksF styleOpen styleClose l.length l

/-- One global replace of `/<[^>]*>/g` by the empty string: at a `'<'` the
match consumes through the first `'>'`; when no `'>'` follows, the match at
this position fails and scanning resumes at the next position. -/
def removeTagsF : Nat → List Char → List Char
  | 0, l => l
  | _ + 1, [] => []
  | f + 1, c :: cs =>
    if c == '<' then
      match splitFirstGt cs with
      | some rest => removeTagsF f rest
      | none => c :: removeTagsF f cs
    else c :: removeTagsF f cs

/-- `.replace(/<[^>]*>/g, '')` -/
def removeTags (l : List Char) : List Char :=
  removeTagsF l.length l

/-- `.replace(/\s+/g, ' ')`: every maximal run of whitespace becomes a
single space (emitted at the last character of the run). -/
def collapseWs : List Char → List Char
  | [] => []
  | [c] => if isWs c then [' '] else [c]
  | a :: b :: t =>
    if isWs a && isWs b then collapseWs (b :: t)
    else (if isWs a then ' ' else a) :: collapseWs (b :: t)

/-- `.trim()`: drop whitespace from both ends. -/
def trimWs (l : List Char) : List Char :=
  ((l.dropWhile isWs).reverse.dropWhile isWs).reverse

/-- The full extractor of summerize_url/index.ts lines 141-147
(= process-url/index.ts lines 144-150): remove script blocks, remove style
blocks, remove remaining tags, collapse whitespace runs, trim, and
truncate to the first 8000 characters (`.substring(0, 8000)`). -/
def extractL (l : List Char) : List Char :=
  (trimWs (collapseWs (removeTags (removeStyle (removeScript l))))).take 8000

/-- The extractor on `String`. -/
def extract (s : String) : String :=
  String.mk (extractL s.data)

/-- Is there a `'>'` anywhere in the list? -/
def hasGt : List Char → Bool
  | [] => false
  | c :: cs => c == '>' || hasGt cs

/-- Is there a `'<'` anywhere in the list? -/
def hasLt : List Char → Bool
  | [] => false
  | c :: cs => c == '<' || hasLt cs

/-- Is there a `'<'` somewhere before a (not necessarily adjacent) `'>'`?
This is exactly "the list contains a `<...>`-delimited tag". -/
def hasTag : List Char → Bool
  | [] => false
  | c :: cs => (c == '<' && hasGt cs) || hasTag cs

/-- No two adjacent characters are both whitespace. -/
def noWsPair : List Char → Bool
  | a :: b :: t => (!(isWs a && isWs b)) && noWsPair (b :: t)
  | _ => true

/-!
Pipeline model.  Each edge function is embedded as a pure function from a
request and an environment (the outcomes the external world would produce:
database rows, fetch result, API key, completion result, insert results) to
an `Outcome`: the HTTP response plus a record of which external effects the
handler performed.
-/

/-- A JSON scalar, as destructured from the request body.  `jnull` also
stands for the JavaScript `undefined` of an absent field. -/
inductive JVal
  | jnull
  | jbool (b : Bool)
  | jnum (n : Int)
  | jstr (s : String)
deriving DecidableEq

/-- JavaScript truthiness of a JSON scalar (`!x` tests in the handlers):
`null`, `false`, `0` and `""` are falsy. -/
def JVal.truthy : JVal → Bool
  | .jnull => false
  | .jbool b => b
  | .jnum n => n != 0
  | .jstr s => s != ""

/-- JavaScript string interpolation of a JSON scalar. -/
def JVal.toStr : JVal → String
  | .jnull => "null"
  | .jbool true => "true"
  | .jbool false => "false"
  | .jnum n => toString n
  | .jstr s => s

/-- Equality test used by `.eq('id', v)` against an integer row id. -/
def JVal.matchesId : JVal → Int → Bool
  | .jnum n, i => n == i
  | _, _ => false

/-- Truthiness of a possibly absent request field (`undefined` is falsy). -/
def truthyOpt : Option JVal → Bool
  | none => false
  | some v => v.truthy

/-- Truthiness of `Deno.env.get('OPENAI_API_KEY')`: `undefined` and `""`
are falsy. -/
def keyTruthy : Option String → Bool
  | none => false
  | some s => s != ""

/-- A row of the `urls` table. -/
structure UrlRow where
  id : Int
  url : String
  caption : String
  created_at : String
deriving DecidableEq

/-- A row of the `prompts` table. -/
structure PromptRow where
  id : Int
  prompt : String
  prompt_name : String
deriving DecidableEq

/-- A supabase insert error (message, code, hint). -/
structure DbErr where
  msg : String
  code : String
  hint : String
deriving DecidableEq

/-- Outcome of the `fetch(url)` scrape: 2xx body text, a non-2xx status
(which the handlers turn into a thrown `HTTP {status}: {statusText}`), or a
thrown network error. -/
inductive FetchResult
  | ok (html : String)
  | httpError (status : Nat) (statusText : String)
  | netError (msg : String)
deriving DecidableEq

/-- Outcome of the completion call: 2xx with decodable body (carrying
`choices[0]?.message?.content` when structurally present), a non-2xx status
with error body, or a thrown error (network failure or undecodable body). -/
inductive ChatResult
  | ok (content : Option String)
  | httpError (status : Nat) (body : String)
  | exn (msg : String)
deriving DecidableEq

/-- One message of the completion request. -/
structure ChatMsg where
  role : String
  content : String
deriving DecidableEq

/-- The JSON body sent to the completion endpoint. -/
structure ChatRequest where
  model : String
  messages : List ChatMsg
  max_tokens : Nat
  temperature : ℚ
deriving DecidableEq

/-- The row the handlers insert into `url_summery`. -/
structure SummeryRow where
  url_id : JVal
  prompt_id : JVal
  scraped_data : String
  ai_response : String
deriving DecidableEq

/-- The JSON response body; every field the two handlers ever emit, each
`none` when the field is absent from the emitted object.  `summery_id` is
`some none` when the field is present with value `null`. -/
structure RespBody where
  error : Option String := none
  details : Option String := none
  code : Option String := none
  hint : Option String := none
  url_id : Option JVal := none
  url : Option String := none
  created_at : Option String := none
  processed : Option Bool := none
  success : Option Bool := none
  summary : Option String := none
  prompt_used : Option String := none
  prompt_name : Option String := none
  summery_id : Option (Option Int) := none
  original_caption : Option String := none
  scraped_text_length : Option Nat := none
  ai_response : Option String := none
  model : Option String := none
deriving DecidableEq

/-- The HTTP response: status, optional JSON body (`none` = null body), and
the headers the handlers set. -/
structure HttpResponse where
  status : Nat := 200
  body : Option RespBody := none
  corsOrigin : Option String := none
  corsMethods : Option String := none
  corsAllowedHeaders : Option String := none
  contentType : Option String := none
deriving DecidableEq

/-- The handler result: the response plus which external effects ran. -/
structure Outcome where
  resp : HttpResponse
  urlInsertTried : Bool := false
  urlsRead : Bool := false
  promptsRead : Bool := false
  fetchTried : Bool := false
  chatReq : Option ChatRequest := none
  summeryWrite : Option SummeryRow := none
deriving DecidableEq

/-- A JSON response with CORS origin `*` and JSON content type, as built by
every non-OPTIONS `new Response(JSON.stringify(...))` in both handlers. -/
def mkResp (status : Nat) (b : RespBody) : HttpResponse :=
  { status := status, body := some b, corsOrigin := some "*",
    contentType := some "application/json" }

/-- The OPTIONS preflight outcome, identical in both handlers: status 200,
null body, CORS headers, and no external effect. -/
def optionsOutcome : Outcome :=
  { resp := { status := 200, body := none, corsOrigin := some "*",
              corsMethods := some "POST, OPTIONS",
              corsAllowedHeaders :=
                some "authorization, x-client-info, apikey, content-type" } }

/-- The PostgREST message produced by `.single()` when no row matches;
the handlers only forward it as `details`. -/
def noRowsMsg : String :=
  "JSON object requested, multiple (or no) rows returned"

/-- Modelled message of a JSON body-parse failure (`error.message` of the
outer catch in process-url). -/
def jsonErrMsg : String := "Unexpected end of JSON input"

/-- Request body of summerize_url (fields may be absent). -/
structure Body1 where
  url : Option JVal := none
  prompt_id : Option JVal := none
deriving DecidableEq

/-- A request to summerize_url; `body = none` models a body that fails to
parse as JSON. -/
structure Req1 where
  method : String
  body : Option Body1
deriving DecidableEq

/-- The external world of one summerize_url invocation. -/
structure Env1 where
  insertResult : Except DbErr UrlRow
  prompts : List PromptRow
  fetch : FetchResult
  openaiKey : Option String
  chat : ChatResult
  summery : Except String Int

/-- Request body of process-url. -/
structure Body2 where
  url_id : Option JVal := none
  prompt_id : Option JVal := none
deriving DecidableEq

/-- A request to process-url. -/
structure Req2 where
  method : String
  body : Option Body2
deriving DecidableEq

/-- The external world of one process-url invocation. -/
structure Env2 where
  urls : List UrlRow
  prompts : List PromptRow
  fetch : FetchResult
  openaiKey : Option String
  chat : ChatResult
  summery : Except String Int

/-- The `aiResponse` computed from a decoded 2xx completion body:
`chatGptData.choices[0]?.message?.content || "No response generated"`.
JavaScript `||` falls back on any falsy value, so both a structurally
absent content and an empty-string content yield the placeholder. -/
def aiOutput : Option String → String
  | some s => if s == "" then "No response generated" else s
  | none => "No response generated"

/-- `summeryData?.id || null` of the success responses: `null` when the
insert failed, and the id otherwise (a 0 id is falsy, hence also `null`). -/
def summeryIdField : Except String Int → Option Int
  | .ok i => if i == 0 then none else some i
  | .error _ => none

/-- The Deno.serve handler of supabase/functions/summerize_url/index.ts
(the Ingest-and-Analyze flow), embedded step for step: OPTIONS preflight;
JSON parse (outer catch → 400); truthiness checks on `url` and `prompt_id`
(→ 400); insert into `urls` (error → 500); then inside the try/catch:
prompt lookup (error → 404 with url_id), scrape with its own try/catch
(error → 500 with url_id), API-key check (→ 500 with url_id), completion
call (failure throws into the catch → 500 with url_id, url, created_at,
processed:false), insert into `url_summery` (error only logged), and the
200 success response. -/
def summerize (req : Req1) (env : Env1) : Outcome :=
  if req.method == "OPTIONS" then optionsOutcome
  else
    match req.body with
    | none => { resp := mkResp 400 { error := some "Invalid request body" } }
    | some b =>
      if !truthyOpt b.url then
        { resp := mkResp 400 { error := some "URL is required" } }
      else if !truthyOpt b.prompt_id then
        { resp := mkResp 400 { error := some "prompt_id is required" } }
      else
        match env.insertResult with
        | .error e =>
          { resp := mkResp 500
              { error := some "Failed to save URL to database",
                details := some e.msg, code := some e.code,
                hint := some e.hint },
            urlInsertTried := true }
        | .ok row =>
          match env.prompts.find?
              (fun p => (b.prompt_id.getD .jnull).matchesId p.id) with
          | none =>
            { resp := mkResp 404
                { error := some "Failed to fetch prompt from database",
                  details := some noRowsMsg,
                  url_id := some (.jnum row.id) },
              urlInsertTried := true, promptsRead := true }
          | some p =>
            match env.fetch with
            | .httpError st stx =>
              { resp := mkResp 500
                  { error := some "Failed to scrape URL content",
                    details := some ("HTTP " ++ toString st ++ ": " ++ stx),
                    url_id := some (.jnum row.id) },
                urlInsertTried := true, promptsRead := true,
                fetchTried := true }
            | .netError m =>
              { resp := mkResp 500
                  { error := some "Failed to scrape URL content",
                    details := some m,
                    url_id := some (.jnum row.id) },
                urlInsertTried := true, promptsRead := true,
                fetchTried := true }
            | .ok html =>
              let scrapedText := extract html
              if !keyTruthy env.openaiKey then
                { resp := mkResp 500
                    { error := some "OpenAI API key not configured",
                      url_id := some (.jnum row.id) },
                  urlInsertTried := true, promptsRead := true,
                  fetchTried := true }
              else
                let msg : ChatMsg :=
                  { role := "user",
                    content := p.prompt ++ "\n\nWebsite URL: " ++
                      (b.url.getD .jnull).toStr ++ "\nContent: " ++
                      scrapedText }
                let creq : ChatRequest :=
                  { model := "gpt-3.5-turbo", messages := [msg],
                    max_tokens := 500, temperature := 7 / 10 }
                match env.chat with
                | .httpError st bd =>
                  { resp := mkResp 500
                      { error := some "URL saved but AI processing failed",
                        details := some ("ChatGPT API error: " ++
                          toString st ++ " - " ++ bd),
                        url_id := some (.jnum row.id), url := some row.url,
                        created_at := some row.created_at,
                        processed := some false },
                    urlInsertTried := true, promptsRead := true,
                    fetchTried := true, chatReq := some creq }
                | .exn m =>
                  { resp := mkResp 500
                      { error := some "URL saved but AI processing failed",
                        details := some m,
                        url_id := some (.jnum row.id), url := some row.url,
                        created_at := some row.created_at,
                        processed := some false },
                    urlInsertTried := true, promptsRead := true,
                    fetchTried := true, chatReq := some creq }
                | .ok c =>
                  let aiResponse := aiOutput c
                  { resp := mkResp 200
                      { success := some true,
                        url_id := some (.jnum row.id), url := some row.url,
                        summary := some aiResponse,
                        prompt_used := some p.prompt_name,
                        created_at := some row.created_at,
                        processed := some true,
                        summery_id := some (summeryIdField env.summery) },
                    urlInsertTried := true, promptsRead := true,
                    fetchTried := true, chatReq := some creq,
                    summeryWrite := some
                      { url_id := .jnum row.id,
                        prompt_id := b.prompt_id.getD .jnull,
                        scraped_data := scrapedText,
                        ai_response := aiResponse } }

/-- The Deno.serve handler of supabase/functions/process-url/index.ts
(the Analyze-Existing flow), embedded step for step: OPTIONS preflight;
JSON parse (outer catch → 400 with details); truthiness checks on `url_id`
and `prompt_id` (→ 400); `urls` lookup (error → 404); `prompts` lookup
(error → 404); scrape with its own try/catch (→ 500); API-key check
(→ 500); then inside the try/catch: completion call (failure → 500),
insert into `url_summery` (error only logged), and the 200 success
response.  The `!urlData` 404 branch of the source is unreachable (after a
non-error `.single()` the data is present) and has no counterpart here. -/
def processUrl (req : Req2) (env : Env2) : Outcome :=
  if req.method == "OPTIONS" then optionsOutcome
  else
    match req.body with
    | none =>
      { resp := mkResp 400
          { error := some "Invalid request body or internal error",
            details := some jsonErrMsg } }
    | some b =>
      if !truthyOpt b.url_id then
        { resp := mkResp 400 { error := some "url_id is required" } }
      else if !truthyOpt b.prompt_id then
        { resp := mkResp 400 { error := some "prompt_id is required" } }
      else
        match env.urls.find?
            (fun r => (b.url_id.getD .jnull).matchesId r.id) with
        | none =>
          { resp := mkResp 404
              { error := some "Failed to fetch URL from database",
                details := some noRowsMsg },
            urlsRead := true }
        | some row =>
          match env.prompts.find?
              (fun p => (b.prompt_id.getD .jnull).matchesId p.id) with
          | none =>
            { resp := mkResp 404
                { error := some "Failed to fetch prompt from database",
                  details := some noRowsMsg },
              urlsRead := true, promptsRead := true }
          | some p =>
            match env.fetch with
            | .httpError st stx =>
              { resp := mkResp 500
                  { error := some "Failed to scrape URL content",
                    details := some ("HTTP " ++ toString st ++ ": " ++ stx) },
                urlsRead := true, promptsRead := true, fetchTried := true }
            | .netError m =>
              { resp := mkResp 500
                  { error := some "Failed to scrape URL content",
                    details := some m },
                urlsRead := true, promptsRead := true, fetchTried := true }
            | .ok html =>
              let scrapedText := extract html
              if !keyTruthy env.openaiKey then
                { resp := mkResp 500
                    { error := some "OpenAI API key not configured" },
                  urlsRead := true, promptsRead := true, fetchTried := true }
              else
                let msg : ChatMsg :=
                  { role := "user",
                    content := p.prompt ++ "\n\nWebsite URL: " ++
                      row.url ++ "\nContent: " ++ scrapedText }
                let creq : ChatRequest :=
                  { model := "gpt-3.5-turbo", messages := [msg],
                    max_tokens := 500, temperature := 7 / 10 }
                match env.chat with
                | .httpError st bd =>
                  { resp := mkResp 500
                      { error := some "Failed to get AI response",
                        details := some ("ChatGPT API error: " ++
                          toString st ++ " - " ++ bd) },
                    urlsRead := true, promptsRead := true,
                    fetchTried := true, chatReq := some creq }
                | .exn m =>
                  { resp := mkResp 500
                      { error := some "Failed to get AI response",
                        details := some m },
                    urlsRead := true, promptsRead := true,
                    fetchTried := true, chatReq := some creq }
                | .ok c =>
                  let aiResponse := aiOutput c
                  { resp := mkResp 200
                      { success := some true,
                        url_id := some (b.url_id.getD .jnull),
                        url := some row.url,
                        original_caption := some row.caption,
                        scraped_text_length := some scrapedText.length,
                        ai_response := some aiResponse,
                        prompt_used := some p.prompt,
                        prompt_name := some p.prompt_name,
                        model := some "gpt-3.5-turbo",
                        summery_id := some (summeryIdField env.summery) },
                    urlsRead := true, promptsRead := true,
                    fetchTried := true, chatReq := some creq,
                    summeryWrite := some
                      { url_id := b.url_id.getD .jnull,
                        prompt_id := b.prompt_id.getD .jnull,
                        scraped_data := scrapedText,
                        ai_response := aiResponse } }

/-! ### Concrete data for witnesses and counterexamples -/

/-- An 8001-character input exercising the truncation cap. -/
def c5x : List Char := List.replicate 7999 'a' ++ [' ', 'b']

/-- The 8000-character extraction of `c5x` (ends in a space). -/
def c5y : List Char := List.replicate 7999 'a' ++ [' ']

def wRow : UrlRow :=
  { id := 7, url := "https://example.com", caption := "URL added at t0",
    created_at := "2024-01-01T00:00:00Z" }

def wPrompt : PromptRow :=
  { id := 3, prompt := "Summarize this webpage", prompt_name := "short" }

def wBody1 : Body1 :=
  { url := some (.jstr "https://example.com"), prompt_id := some (.jnum 3) }

def wBody2 : Body2 :=
  { url_id := some (.jnum 7), prompt_id := some (.jnum 3) }

def wHtml : String :=
  "<html><body><script>x</script>Hello <b>World</b></body></html>"

def wEnv1 : Env1 :=
  { insertResult := .ok wRow, prompts := [wPrompt], fetch := .ok wHtml,
    openaiKey := some "sk-test", chat := .ok (some "A short page."),
    summery := .ok 11 }

def wEnv2 : Env2 :=
  { urls := [wRow], prompts := [wPrompt], fetch := .ok wHtml,
    openaiKey := some "sk-test", chat := .ok (some "A short page."),
    summery := .ok 11 }

/-- A summerize_url world in which the URL insert succeeds but no prompt
row matches. -/
def c2env : Env1 :=
  { insertResult := .ok wRow, prompts := [], fetch := .ok wHtml,
    openaiKey := some "sk-test", chat := .ok (some "x"), summery := .ok 1 }

/-! ### Extractor lemmas -/

theorem hasGt_append (p s : List Char) :
    hasGt (p ++ s) = (hasGt p || hasGt s) := by
  induction p with
  | nil => simp [hasGt]
  | cons c cs ih => simp [hasGt, ih, Bool.or_assoc]

theorem splitFirstGt_eq_none {l : List Char} :
    splitFirstGt l = none ↔ hasGt l = false := by
  induction l with
  | nil => simp [splitFirstGt, hasGt]
  | cons c cs ih =>
    by_cases hc : c = '>'
    · subst hc; simp [splitFirstGt, hasGt]
    · simp [splitFirstGt, hasGt, hc, ih]

theorem splitFirstGt_decomp {l r : List Char} (h : splitFirstGt l = some r) :
    ∃ p, l = p ++ '>' :: r := by
  induction l with
  | nil => simp [splitFirstGt] at h
  | cons c cs ih =>
    by_cases hc : c = '>'
    · subst hc
      simp [splitFirstGt] at h
      exact ⟨[], by simp [h]⟩
    · simp [splitFirstGt, hc] at h
      obtain ⟨p, hp⟩ := ih h
      exact ⟨c :: p, by simp [hp]⟩

theorem hasTag_cons (c : Char) (cs : List Char) :
    hasTag (c :: cs) = ((c == '<' && hasGt cs) || hasTag cs) := rfl

theorem hasTag_append_right {p s : List Char} (h : hasTag (p ++ s) = false) :
    hasTag s = false := by
  induction p with
  | nil => exact h
  | cons c cs ih =>
    rw [List.cons_append, hasTag_cons, Bool.or_eq_false_iff] at h
    exact ih h.2

theorem hasTag_append_left {p s : List Char} (h : hasTag (p ++ s) = false) :
    hasTag p = false := by
  induction p with
  | nil => simp [hasTag]
  | cons c cs ih =>
    rw [List.cons_append, hasTag_cons, Bool.or_eq_false_iff] at h
    obtain ⟨h1, h2⟩ := h
    rw [hasTag_cons, Bool.or_eq_false_iff]
    refine ⟨?_, ih h2⟩
    rw [Bool.and_eq_false_iff] at h1 ⊢
    rcases h1 with h1 | h1
    · exact Or.inl h1
    · rw [hasGt_append, Bool.or_eq_false_iff] at h1
      exact Or.inr h1.1

theorem hasGt_removeTagsF : ∀ (f : Nat) (l : List Char),
    hasGt l = false → hasGt (removeTagsF f l) = false := by
  intro f
  induction f with
  | zero => intro l h; simpa [removeTagsF] using h
  | succ f ih =>
    intro l h
    match l with
    | [] => simp [removeTagsF, hasGt]
    | c :: cs =>
      rw [hasGt, Bool.or_eq_false_iff] at h
      have hn : splitFirstGt cs = none := splitFirstGt_eq_none.mpr h.2
      by_cases hc : c = '<'
      · simp [removeTagsF, hc, hn, hasGt, h.1, ih cs h.2]
      · simp [removeTagsF, hc, hasGt, h.1, ih cs h.2]

theorem hasTag_removeTagsF : ∀ (f : Nat) (l : List Char),
    l.length ≤ f → hasTag (removeTagsF f l) = false := by
  intro f
  induction f with
  | zero =>
    intro l hl
    have h0 : l = [] := List.length_eq_zero.mp (Nat.le_zero.mp hl)
    subst h0; simp [removeTagsF, hasTag]
  | succ f ih =>
    intro l hl
    match l with
    | [] => simp [removeTagsF, hasTag]
    | c :: cs =>
      have hcs : cs.length ≤ f := by
        simpa using Nat.succ_le_succ_iff.mp (by simpa using hl)
      by_cases hc : c = '<'
      · subst hc
        cases hsp : splitFirstGt cs with
        | some rest =>
          obtain ⟨p, hp⟩ := splitFirstGt_decomp hsp
          have hr : rest.length ≤ f := by
            subst hp; simp at hcs; omega
          simp [removeTagsF, hsp, ih rest hr]
        | none =>
          have hgt : hasGt cs = false := splitFirstGt_eq_none.mp hsp
          simp [removeTagsF, hsp, hasTag, ih cs hcs,
            hasGt_removeTagsF f cs hgt]
      · simp [removeTagsF, hc, hasTag, ih cs hcs]

theorem hasTag_removeTags (l : List Char) : hasTag (removeTags l) = false :=
  hasTag_removeTagsF l.length l le_rfl

theorem hasGt_collapseWs : ∀ l : List Char,
    hasGt l = false → hasGt (collapseWs l) = false := by
  intro l
  induction l with
  | nil => simp [collapseWs]
  | cons a t ih =>
    intro h
    rw [hasGt, Bool.or_eq_false_iff] at h
    cases t with
    | nil =>
      cases ha : isWs a <;> simp [collapseWs, ha, hasGt, h.1]
    | cons b t2 =>
      cases hab : (isWs a && isWs b) with
      | true =>
        rw [collapseWs]
        simp only [hab, if_true]
        exact ih h.2
      | false =>
        rw [collapseWs]
        simp only [hab, Bool.false_eq_true, if_false]
        cases ha : isWs a <;> simp [hasGt, ha, h.1, ih h.2]

theorem hasTag_collapseWs : ∀ l : List Char,
    hasTag l = false → hasTag (collapseWs l) = false := by
  intro l
  induction l with
  | nil => simp [collapseWs, hasTag]
  | cons a t ih =>
    intro h
    rw [hasTag_cons, Bool.or_eq_false_iff] at h
    cases t with
    | nil =>
      cases ha : isWs a <;> simp [collapseWs, ha, hasTag, hasGt]
    | cons b t2 =>
      cases hab : (isWs a && isWs b) with
      | true =>
        rw [collapseWs]
        simp only [hab, if_true]
        exact ih h.2
      | false =>
        rw [collapseWs]
        simp only [hab, Bool.false_eq_true, if_false]
        rw [hasTag_cons, Bool.or_eq_false_iff]
        refine ⟨?_, ih h.2⟩
        rw [Bool.and_eq_false_iff]
        cases ha : isWs a
        · simp only [ha, Bool.false_eq_true, if_false]
          rcases Bool.and_eq_false_iff.mp h.1 with h1 | h1
          · exact Or.inl h1
          · exact Or.inr (hasGt_collapseWs _ h1)
        · exact Or.inl (by simp [ha])

theorem noWsPair_cons2 (a b : Char) (t : List Char) :
    noWsPair (a :: b :: t) = ((!(isWs a && isWs b)) && noWsPair (b :: t)) := rfl

theorem noWsPair_tail {a : Char} {t : List Char}
    (h : noWsPair (a :: t) = true) : noWsPair t = true := by
  cases t with
  | nil => rfl
  | cons b t2 =>
    rw [noWsPair_cons2, Bool.and_eq_true] at h
    exact h.2

theorem noWsPair_append_right : ∀ (p l : List Char),
    noWsPair (p ++ l) = true → noWsPair l = true := by
  intro p
  induction p with
  | nil => intro l h; exact h
  | cons a p' ih => intro l h; exact ih l (noWsPair_tail h)

theorem noWsPair_append_left : ∀ (p l : List Char),
    noWsPair (p ++ l) = true → noWsPair p = true := by
  intro p
  induction p with
  | nil => intro l _; rfl
  | cons a p' ih =>
    intro l h
    cases p' with
    | nil => rfl
    | cons b p'' =>
      rw [List.cons_append, List.cons_append, noWsPair_cons2,
        Bool.and_eq_true] at h
      rw [noWsPair_cons2, Bool.and_eq_true]
      exact ⟨h.1, ih l (by rw [List.cons_append]; exact h.2)⟩

theorem collapseWs_cons_of_not_ws {b : Char} (t : List Char)
    (hb : isWs b = false) : ∃ t', collapseWs (b :: t) = b :: t' := by
  cases t with
  | nil => exact ⟨[], by simp [collapseWs, hb]⟩
  | cons c t2 => exact ⟨collapseWs (c :: t2), by simp [collapseWs, hb]⟩

theorem noWsPair_collapseWs : ∀ l : List Char,
    noWsPair (collapseWs l) = true := by
  intro l
  induction l with
  | nil => rfl
  | cons a t ih =>
    cases t with
    | nil => cases ha : isWs a <;> simp [collapseWs, ha, noWsPair]
    | cons b t2 =>
      cases hab : (isWs a && isWs b) with
      | true =>
        rw [collapseWs]
        simp only [hab, if_true]
        exact ih
      | false =>
        rw [collapseWs]
        simp only [hab, Bool.false_eq_true, if_false]
        cases ha : isWs a
        · simp only [ha, Bool.false_eq_true, if_false]
          cases hc : collapseWs (b :: t2) with
          | nil => rfl
          | cons y t' =>
            rw [noWsPair_cons2, Bool.and_eq_true]
            exact ⟨by simp [ha], by rw [← hc]; exact ih⟩
        · have hb : isWs b = false := by
            cases hbv : isWs b
            · rfl
            · rw [ha, hbv] at hab; simp at hab
          obtain ⟨t', ht'⟩ := collapseWs_cons_of_not_ws t2 hb
          simp only [ha, if_true]
          rw [ht', noWsPair_cons2, Bool.and_eq_true]
          exact ⟨by simp [hb], by rw [← ht']; exact ih⟩

theorem dropWhile_eq_trim_append (l : List Char) :
    l.dropWhile isWs =
      trimWs l ++ ((l.dropWhile isWs).reverse.takeWhile isWs).reverse := by
  conv_lhs => rw [← List.reverse_reverse (l.dropWhile isWs)]
  conv_lhs =>
    rw [← List.takeWhile_append_dropWhile (p := isWs)
      (l := (l.dropWhile isWs).reverse)]
  rw [List.reverse_append]
  rfl

theorem trimWs_decomp (l : List Char) : ∃ p s, l = p ++ trimWs l ++ s := by
  refine ⟨l.takeWhile isWs,
    ((l.dropWhile isWs).reverse.takeWhile isWs).reverse, ?_⟩
  conv_lhs => rw [← List.takeWhile_append_dropWhile (p := isWs) (l := l),
    dropWhile_eq_trim_append l]
  rw [← List.append_assoc]

theorem hasTag_trimWs {l : List Char} (h : hasTag l = false) :
    hasTag (trimWs l) = false := by
  obtain ⟨p, s, hd⟩ := trimWs_decomp l
  rw [hd, List.append_assoc] at h
  exact hasTag_append_left (hasTag_append_right h)

theorem noWsPair_trimWs {l : List Char} (h : noWsPair l = true) :
    noWsPair (trimWs l) = true := by
  obtain ⟨p, s, hd⟩ := trimWs_decomp l
  rw [hd, List.append_assoc] at h
  exact noWsPair_append_left _ _ (noWsPair_append_right p _ h)

theorem hasTag_take {l : List Char} (n : Nat) (h : hasTag l = false) :
    hasTag (l.take n) = false := by
  rw [← List.take_append_drop n l] at h
  exact hasTag_append_left h

theorem noWsPair_take {l : List Char} (n : Nat) (h : noWsPair l = true) :
    noWsPair (l.take n) = true := by
  rw [← List.take_append_drop n l] at h
  exact noWsPair_append_left _ _ h

theorem extractL_length_le (l : List Char) : (extractL l).length ≤ 8000 := by
  unfold extractL
  simp [List.length_take]

/-! ### Identity of the transformation stages on already-extracted text -/

theorem hasGt_drop (n : Nat) {l : List Char} (h : hasGt l = false) :
    hasGt (l.drop n) = false := by
  rw [← List.take_append_drop n l, hasGt_append, Bool.or_eq_false_iff] at h
  exact h.2

theorem removeTagsF_id : ∀ (l : List Char), hasTag l = false →
    ∀ f, removeTagsF f l = l := by
  intro l
  induction l with
  | nil => intro _ f; cases f <;> rfl
  | cons c cs ih =>
    intro h f
    rw [hasTag_cons, Bool.or_eq_false_iff] at h
    cases f with
    | zero => rfl
    | succ f =>
      by_cases hc : c = '<'
      · subst hc
        have hgt : hasGt cs = false := by
          rcases Bool.and_eq_false_iff.mp h.1 with h1 | h1
          · simp at h1
          · exact h1
        have hn : splitFirstGt cs = none := splitFirstGt_eq_none.mpr hgt
        simp [removeTagsF, hn, ih h.2 f]
      · simp [removeTagsF, hc, ih h.2 f]

theorem removeBlocksF_id (opn cls : List Char) : ∀ (l : List Char),
    hasTag l = false → ∀ f, removeBlocksF opn cls f l = l := by
  intro l
  induction l with
  | nil => intro _ f; cases f <;> rfl
  | cons c cs ih =>
    intro h f
    rw [hasTag_cons, Bool.or_eq_false_iff] at h
    cases f with
    | zero => rfl
    | succ f =>
      by_cases hco : (c == '<' && ciStarts opn cs) = true
      · have hc : c = '<' := by
          rw [Bool.and_eq_true] at hco
          simpa using hco.1
        have hgt : hasGt cs = false := by
          rcases Bool.and_eq_false_iff.mp h.1 with h1 | h1
          · rw [hc] at h1; simp at h1
          · exact h1
        have hn : splitFirstGt (List.drop opn.length cs) = none :=
          splitFirstGt_eq_none.mpr (hasGt_drop _ hgt)
        simp [removeBlocksF, hco, hn, ih h.2 f]
      · simp [removeBlocksF, hco, ih h.2 f]

theorem collapseWs_id : ∀ l : List Char, noWsPair l = true →
    (∀ a ∈ l, isWs a = true → a = ' ') → collapseWs l = l := by
  intro l
  induction l with
  | nil => intro _ _; rfl
  | cons a t ih =>
    intro h hmem
    cases t with
    | nil =>
      cases ha : isWs a
      · simp [collapseWs, ha]
      · have ha' := hmem a (by simp) ha
        simp [collapseWs, ha, ha']
    | cons b t2 =>
      rw [noWsPair_cons2, Bool.and_eq_true] at h
      have hab : (isWs a && isWs b) = false := by
        cases hv : (isWs a && isWs b)
        · rfl
        · rw [hv] at h
          simp at h
      have htl := ih h.2 (fun x hx hw => hmem x (by simp [hx]) hw)
      rw [collapseWs]
      simp only [hab, Bool.false_eq_true, if_false]
      cases ha : isWs a
      · simp [ha, htl]
      · have ha' := hmem a (by simp) ha
        simp [ha, htl, ha']

theorem collapseWs_ws_mem : ∀ l : List Char, ∀ a ∈ collapseWs l,
    isWs a = true → a = ' ' := by
  intro l
  induction l with
  | nil => intro a ha; simp [collapseWs] at ha
  | cons c t ih =>
    intro a ha hw
    cases t with
    | nil =>
      rw [collapseWs] at ha
      cases hc : isWs c
      · simp only [hc, Bool.false_eq_true, if_false] at ha
        simp at ha
        rw [ha] at hw
        simp [hw] at hc
      · simp only [hc, if_true] at ha
        simp at ha
        exact ha
    | cons b t2 =>
      cases hab : (isWs c && isWs b) with
      | true =>
        rw [collapseWs] at ha
        simp only [hab, if_true] at ha
        exact ih a ha hw
      | false =>
        rw [collapseWs] at ha
        simp only [hab, Bool.false_eq_true, if_false] at ha
        rcases List.mem_cons.mp ha with ha | ha
        · cases hc : isWs c
          · rw [ha] at hw
            simp only [hc, Bool.false_eq_true, if_false] at hw
          · rw [ha]
            simp [hc]
        · exact ih a ha hw

theorem mem_trimWs {l : List Char} {a : Char} (h : a ∈ trimWs l) :
    a ∈ l := by
  obtain ⟨p, s, hd⟩ := trimWs_decomp l
  rw [hd]
  simp [h]

theorem head_dropWhile_not_ws : ∀ (l : List Char) {c : Char},
    (l.dropWhile isWs).head? = some c → isWs c = false := by
  intro l
  induction l with
  | nil => intro c h; simp at h
  | cons x xs ih =>
    intro c h
    cases hx : isWs x
    · rw [List.dropWhile_cons, hx] at h
      simp only [Bool.false_eq_true, if_false, List.head?_cons,
        Option.some.injEq] at h
      rw [← h]
      exact hx
    · rw [List.dropWhile_cons, hx] at h
      simp only [if_true] at h
      exact ih h

theorem dropWhile_eq_self_of_head {l : List Char}
    (h : ∀ c, l.head? = some c → isWs c = false) :
    l.dropWhile isWs = l := by
  cases l with
  | nil => rfl
  | cons x xs =>
    rw [List.dropWhile_cons, h x rfl]
    simp

theorem trimWs_head_not_ws (l : List Char) {c : Char}
    (h : (trimWs l).head? = some c) : isWs c = false := by
  have hd := dropWhile_eq_trim_append l
  have hh : (l.dropWhile isWs).head? = some c := by
    rw [hd]
    cases ht : trimWs l with
    | nil => rw [ht] at h; simp at h
    | cons y ys =>
      rw [ht] at h
      simpa using h
  exact head_dropWhile_not_ws l hh

theorem trimWs_reverse_head_not_ws (l : List Char) {c : Char}
    (h : (trimWs l).reverse.head? = some c) : isWs c = false := by
  simp only [trimWs, List.reverse_reverse] at h
  exact head_dropWhile_not_ws _ h

theorem trimWs_trimWs (l : List Char) : trimWs (trimWs l) = trimWs l := by
  have h1 : (trimWs l).dropWhile isWs = trimWs l :=
    dropWhile_eq_self_of_head (fun c hc => trimWs_head_not_ws l hc)
  have h2 : (trimWs l).reverse.dropWhile isWs = (trimWs l).reverse :=
    dropWhile_eq_self_of_head (fun c hc => trimWs_reverse_head_not_ws l hc)
  set u := trimWs l with hu
  show trimWs u = u
  simp only [trimWs]
  rw [h1, h2, List.reverse_reverse]

theorem hasTag_of_hasLt : ∀ l : List Char,
    hasLt l = false → hasTag l = false := by
  intro l
  induction l with
  | nil => intro _; rfl
  | cons c cs ih =>
    intro h
    rw [hasLt, Bool.or_eq_false_iff] at h
    rw [hasTag_cons, Bool.or_eq_false_iff]
    exact ⟨by simp [h.1], ih h.2⟩

theorem hasLt_replicate (n : Nat) : hasLt (List.replicate n 'a') = false := by
  induction n with
  | zero => rfl
  | succ n ih => simp [List.replicate_succ, hasLt, ih]

theorem hasLt_append (p s : List Char) :
    hasLt (p ++ s) = (hasLt p || hasLt s) := by
  induction p with
  | nil => simp [hasLt]
  | cons c cs ih => simp [hasLt, ih, Bool.or_assoc]

theorem collapseWs_cons_nws {a : Char} (ha : isWs a = false)
    (l : List Char) : collapseWs (a :: l) = a :: collapseWs l := by
  cases l with
  | nil => simp [collapseWs, ha]
  | cons b t => simp [collapseWs, ha]

theorem collapseWs_replicate_append (n : Nat) (l : List Char) :
    collapseWs (List.replicate n 'a' ++ l) =
      List.replicate n 'a' ++ collapseWs l := by
  induction n with
  | zero => simp
  | succ n ih =>
    rw [List.replicate_succ, List.cons_append,
      collapseWs_cons_nws (by decide), ih, List.cons_append]

theorem dropWhile_cons_nws {a : Char} (ha : isWs a = false)
    (l : List Char) : (a :: l).dropWhile isWs = a :: l := by
  rw [List.dropWhile_cons, ha]
  simp

/-! ### The extractor below the cap is idempotent -/

/-- C5 (amended): the extractor is idempotent on every input whose
extraction is not cut by the 8000-character truncation: when
(extract html).length < 8000, extract (extract html) = extract html. -/
theorem C5_amended_idempotent_below_cap (l : List Char)
    (h : (extractL l).length < 8000) :
    extractL (extractL l) = extractL l := by
  have hrw : extractL l =
      (trimWs (collapseWs (removeTags (removeStyle
        (removeScript l))))).take 8000 := rfl
  generalize hy : collapseWs (removeTags (removeStyle (removeScript l))) = y
    at hrw
  have htag : hasTag y = false := by
    rw [← hy]
    exact hasTag_collapseWs _ (hasTag_removeTags _)
  have hws : noWsPair y = true := by
    rw [← hy]
    exact noWsPair_collapseWs _
  have hwsmem : ∀ a ∈ y, isWs a = true → a = ' ' := by
    rw [← hy]
    exact collapseWs_ws_mem _
  have hlen : (trimWs y).length < 8000 := by
    rw [hrw, List.length_take] at h
    omega
  have htk : (trimWs y).take 8000 = trimWs y :=
    List.take_of_length_le (le_of_lt hlen)
  rw [hrw, htk]
  have htag2 : hasTag (trimWs y) = false := hasTag_trimWs htag
  have hws2 : noWsPair (trimWs y) = true := noWsPair_trimWs hws
  have hmem2 : ∀ a ∈ trimWs y, isWs a = true → a = ' ' :=
    fun a ha hw => hwsmem a (mem_trimWs ha) hw
  unfold extractL removeScript removeStyle removeTags
  rw [removeBlocksF_id scriptOpen scriptClose _ htag2,
    removeBlocksF_id styleOpen styleClose _ htag2,
    removeTagsF_id _ htag2,
    collapseWs_id _ hws2 hmem2,
    trimWs_trimWs,
    List.take_of_length_le (le_of_lt hlen)]

/-! ### The truncation boundary breaks idempotence -/

theorem extractL_c5x : extractL c5x = c5y := by
  have hlt : hasLt c5x = false := by
    rw [c5x, hasLt_append, hasLt_replicate]
    decide
  have htag : hasTag c5x = false := hasTag_of_hasLt _ hlt
  have hsm : collapseWs [' ', 'b'] = [' ', 'b'] := by decide
  have hcw : collapseWs c5x = c5x := by
    rw [c5x, collapseWs_replicate_append, hsm]
  have h79 : (7999 : Nat) = 7998 + 1 := rfl
  have hd1 : c5x.dropWhile isWs = c5x := by
    rw [c5x, h79, List.replicate_succ, List.cons_append]
    exact dropWhile_cons_nws (by decide) _
  have hd2 : c5x.reverse.dropWhile isWs = c5x.reverse := by
    rw [c5x, List.reverse_append, List.reverse_replicate]
    show (['b', ' '] ++ List.replicate 7999 'a').dropWhile isWs = _
    rw [List.cons_append]
    exact dropWhile_cons_nws (by decide) _
  have htr : trimWs c5x = c5x := by
    unfold trimWs
    rw [hd1, hd2, List.reverse_reverse]
  have hrep : List.take 8000 (List.replicate 7999 'a') =
      List.replicate 7999 'a' :=
    List.take_of_length_le (by rw [List.length_replicate]; omega)
  have htk : List.take 8000 c5x = c5y := by
    rw [c5x, List.take_append_eq_append_take, List.length_replicate, hrep,
      c5y]
    exact congrArg (fun t => List.replicate 7999 'a' ++ t) (by decide)
  unfold extractL removeScript removeStyle removeTags
  rw [removeBlocksF_id scriptOpen scriptClose _ htag,
    removeBlocksF_id styleOpen styleClose _ htag,
    removeTagsF_id _ htag, hcw, htr]
  exact htk

theorem extractL_c5y : extractL c5y = List.replicate 7999 'a' := by
  have hlt : hasLt c5y = false := by
    rw [c5y, hasLt_append, hasLt_replicate]
    decide
  have htag : hasTag c5y = false := hasTag_of_hasLt _ hlt
  have hsm : collapseWs [' '] = [' '] := by decide
  have hcw : collapseWs c5y = c5y := by
    rw [c5y, collapseWs_replicate_append, hsm]
  have h79 : (7999 : Nat) = 7998 + 1 := rfl
  have hd1 : c5y.dropWhile isWs = c5y := by
    rw [c5y, h79, List.replicate_succ, List.cons_append]
    exact dropWhile_cons_nws (by decide) _
  have hd2 : c5y.reverse.dropWhile isWs = List.replicate 7999 'a' := by
    rw [c5y, List.reverse_append, List.reverse_replicate]
    show ([' '] ++ List.replicate 7999 'a').dropWhile isWs = _
    rw [List.cons_append, List.dropWhile_cons]
    simp only [show isWs ' ' = true from rfl, if_true, List.nil_append]
    rw [h79, List.replicate_succ]
    exact dropWhile_cons_nws (by decide) _
  have htr : trimWs c5y = List.replicate 7999 'a' := by
    unfold trimWs
    rw [hd1, hd2, List.reverse_replicate]
  unfold extractL removeScript removeStyle removeTags
  rw [removeBlocksF_id scriptOpen scriptClose _ htag,
    removeBlocksF_id styleOpen styleClose _ htag,
    removeTagsF_id _ htag, hcw, htr]
  exact List.take_of_length_le (by rw [List.length_replicate]; omega)

example : extract wHtml = "Hello World" := by decide

example : extract "  a   b\t\nc  " = "a b c" := by decide

example : extract "<ScRiPt foo> junk </sCRipt>keep<style>s</style>" = "keep" :=
  by decide

theorem truthyOpt_some (v : JVal) : truthyOpt (some v) = v.truthy := rfl

theorem truthyOpt_none : truthyOpt none = false := rfl

/-! ### Claim theorems -/

/-- C1: in both pipeline flows, if the url_summery insert fails after the
completion call succeeded, the handler still returns a 200 success response
(success: true) carrying the model output and the already-persisted url_id,
with summery_id null; the insert failure never aborts the request. -/
theorem C1_persist_failure_still_success
    (b : Body1) (b2 : Body2) (row : UrlRow) (p : PromptRow) (html : String)
    (c : Option String) (m m2 : String) (env : Env1) (env2 : Env2)
    (hb1 : truthyOpt b.url = true) (hb2 : truthyOpt b.prompt_id = true)
    (hins : env.insertResult = .ok row)
    (hfind : env.prompts.find?
      (fun q => (b.prompt_id.getD .jnull).matchesId q.id) = some p)
    (hfetch : env.fetch = .ok html) (hkey : keyTruthy env.openaiKey = true)
    (hchat : env.chat = .ok c) (hsum : env.summery = .error m)
    (hc1 : truthyOpt b2.url_id = true) (hc2 : truthyOpt b2.prompt_id = true)
    (hurl : env2.urls.find?
      (fun r => (b2.url_id.getD .jnull).matchesId r.id) = some row)
    (hfind2 : env2.prompts.find?
      (fun q => (b2.prompt_id.getD .jnull).matchesId q.id) = some p)
    (hfetch2 : env2.fetch = .ok html) (hkey2 : keyTruthy env2.openaiKey = true)
    (hchat2 : env2.chat = .ok c) (hsum2 : env2.summery = .error m2) :
    ((summerize ⟨"POST", some b⟩ env).resp.status = 200 ∧
     (summerize ⟨"POST", some b⟩ env).resp.body =
       some { success := some true, url_id := some (.jnum row.id),
              url := some row.url, summary := some (aiOutput c),
              prompt_used := some p.prompt_name,
              created_at := some row.created_at, processed := some true,
              summery_id := some none }) ∧
    ((processUrl ⟨"POST", some b2⟩ env2).resp.status = 200 ∧
     (processUrl ⟨"POST", some b2⟩ env2).resp.body =
       some { success := some true, url_id := some (b2.url_id.getD .jnull),
              url := some row.url, original_caption := some row.caption,
              scraped_text_length := some (extract html).length,
              ai_response := some (aiOutput c),
              prompt_used := some p.prompt, prompt_name := some p.prompt_name,
              model := some "gpt-3.5-turbo",
              summery_id := some none }) := by
  constructor
  · constructor <;>
      simp [summerize, hb1, hb2, hins, hfind, hfetch, hkey, hchat, hsum,
        mkResp, summeryIdField]
  · constructor <;>
      simp [processUrl, hc1, hc2, hurl, hfind2, hfetch2, hkey2, hchat2,
        hsum2, mkResp, summeryIdField]

theorem C1_witness :
    (summerize ⟨"POST", some wBody1⟩
        { wEnv1 with summery := .error "dup" }).resp.status = 200 ∧
    (summerize ⟨"POST", some wBody1⟩
        { wEnv1 with summery := .error "dup" }).resp.body =
      some { success := some true, url_id := some (.jnum 7),
             url := some "https://example.com",
             summary := some "A short page.", prompt_used := some "short",
             created_at := some "2024-01-01T00:00:00Z",
             processed := some true, summery_id := some none } :=
  (C1_persist_failure_still_success wBody1 wBody2 wRow wPrompt wHtml
    (some "A short page.") "dup" "dup"
    { wEnv1 with summery := .error "dup" }
    { wEnv2 with summery := .error "dup" }
    rfl rfl rfl rfl rfl rfl rfl rfl rfl rfl rfl rfl rfl rfl rfl rfl).1

/-- C2 counterexample: in the Ingest-and-Analyze flow with the URL record
created and the prompt lookup failing, the 404 partial-failure response
carries url_id, error and details but not url, created_at or processed —
refuting the claim that every partial-failure response includes all of
url_id, url, created_at, processed, error and details. -/
theorem C2_counterexample :
    (summerize ⟨"POST", some wBody1⟩ c2env).urlInsertTried = true ∧
    (summerize ⟨"POST", some wBody1⟩ c2env).resp.status = 404 ∧
    (summerize ⟨"POST", some wBody1⟩ c2env).resp.body.bind (·.url_id) =
      some (.jnum 7) ∧
    (summerize ⟨"POST", some wBody1⟩ c2env).resp.body.bind (·.error) ≠
      none ∧
    (summerize ⟨"POST", some wBody1⟩ c2env).resp.body.bind (·.url) = none ∧
    (summerize ⟨"POST", some wBody1⟩ c2env).resp.body.bind (·.created_at) =
      none ∧
    (summerize ⟨"POST", some wBody1⟩ c2env).resp.body.bind (·.processed) =
      none := by
  decide

/-- C2 (amended): in the Ingest-and-Analyze flow, once the URL record is
created, every partial-failure response includes url_id and error; only the
completion-call failure response additionally includes all of url,
created_at, processed: false and details (the prompt-not-found and
scrape-failure responses include details but not url, created_at or
processed, and the missing-key response includes neither details nor those
fields). -/
theorem C2_amended_partial_failure_fields
    (b : Body1) (env : Env1) (row : UrlRow)
    (hb1 : truthyOpt b.url = true) (hb2 : truthyOpt b.prompt_id = true)
    (hins : env.insertResult = .ok row) :
    ((summerize ⟨"POST", some b⟩ env).resp.status ≠ 200 →
      (summerize ⟨"POST", some b⟩ env).resp.body.bind (·.url_id) =
        some (.jnum row.id) ∧
      (summerize ⟨"POST", some b⟩ env).resp.body.bind (·.error) ≠ none) ∧
    (env.prompts.find?
        (fun q => (b.prompt_id.getD .jnull).matchesId q.id) = none →
      (summerize ⟨"POST", some b⟩ env).resp.status = 404 ∧
      (summerize ⟨"POST", some b⟩ env).resp.body =
        some { error := some "Failed to fetch prompt from database",
               details := some noRowsMsg,
               url_id := some (.jnum row.id) }) ∧
    (∀ p, env.prompts.find?
        (fun q => (b.prompt_id.getD .jnull).matchesId q.id) = some p →
      ((∀ st stx, env.fetch = .httpError st stx →
        (summerize ⟨"POST", some b⟩ env).resp.status = 500 ∧
        (summerize ⟨"POST", some b⟩ env).resp.body =
          some { error := some "Failed to scrape URL content",
                 details := some ("HTTP " ++ toString st ++ ": " ++ stx),
                 url_id := some (.jnum row.id) }) ∧
       (∀ m, env.fetch = .netError m →
        (summerize ⟨"POST", some b⟩ env).resp.status = 500 ∧
        (summerize ⟨"POST", some b⟩ env).resp.body =
          some { error := some "Failed to scrape URL content",
                 details := some m,
                 url_id := some (.jnum row.id) }))) ∧
    (∀ p html, env.prompts.find?
        (fun q => (b.prompt_id.getD .jnull).matchesId q.id) = some p →
      env.fetch = .ok html → keyTruthy env.openaiKey = false →
      (summerize ⟨"POST", some b⟩ env).resp.status = 500 ∧
      (summerize ⟨"POST", some b⟩ env).resp.body =
        some { error := some "OpenAI API key not configured",
               url_id := some (.jnum row.id) }) ∧
    (∀ p html, env.prompts.find?
        (fun q => (b.prompt_id.getD .jnull).matchesId q.id) = some p →
      env.fetch = .ok html → keyTruthy env.openaiKey = true →
      ((∀ st bd, env.chat = .httpError st bd →
        (summerize ⟨"POST", some b⟩ env).resp.status = 500 ∧
        (summerize ⟨"POST", some b⟩ env).resp.body =
          some { error := some "URL saved but AI processing failed",
                 details := some ("ChatGPT API error: " ++ toString st ++
                   " - " ++ bd),
                 url_id := some (.jnum row.id), url := some row.url,
                 created_at := some row.created_at,
                 processed := some false }) ∧
       (∀ m, env.chat = .exn m →
        (summerize ⟨"POST", some b⟩ env).resp.status = 500 ∧
        (summerize ⟨"POST", some b⟩ env).resp.body =
          some { error := some "URL saved but AI processing failed",
                 details := some m,
                 url_id := some (.jnum row.id), url := some row.url,
                 created_at := some row.created_at,
                 processed := some false }))) := by
  refine ⟨?_, ?_, ?_, ?_, ?_⟩
  · intro h200
    cases hfind : env.prompts.find?
        (fun q => (b.prompt_id.getD .jnull).matchesId q.id) with
    | none => simp [summerize, hb1, hb2, hins, hfind, mkResp]
    | some p =>
      cases hfetch : env.fetch with
      | httpError st stx =>
        simp [summerize, hb1, hb2, hins, hfind, hfetch, mkResp]
      | netError m =>
        simp [summerize, hb1, hb2, hins, hfind, hfetch, mkResp]
      | ok html =>
        cases hkey : keyTruthy env.openaiKey with
        | false =>
          simp [summerize, hb1, hb2, hins, hfind, hfetch, hkey, mkResp]
        | true =>
          cases hchat : env.chat with
          | ok c =>
            exact absurd (show (summerize ⟨"POST", some b⟩ env).resp.status =
              200 by
                simp [summerize, hb1, hb2, hins, hfind, hfetch, hkey, hchat,
                  mkResp]) h200
          | httpError st bd =>
            simp [summerize, hb1, hb2, hins, hfind, hfetch, hkey, hchat,
              mkResp]
          | exn m =>
            simp [summerize, hb1, hb2, hins, hfind, hfetch, hkey, hchat,
              mkResp]
  · intro hfind
    constructor <;> simp [summerize, hb1, hb2, hins, hfind, mkResp]
  · intro p hfind
    constructor
    · intro st stx hfetch
      constructor <;>
        simp [summerize, hb1, hb2, hins, hfind, hfetch, mkResp]
    · intro m hfetch
      constructor <;>
        simp [summerize, hb1, hb2, hins, hfind, hfetch, mkResp]
  · intro p html hfind hfetch hkey
    constructor <;>
      simp [summerize, hb1, hb2, hins, hfind, hfetch, hkey, mkResp]
  · intro p html hfind hfetch hkey
    constructor
    · intro st bd hchat
      constructor <;>
        simp [summerize, hb1, hb2, hins, hfind, hfetch, hkey, hchat, mkResp]
    · intro m hchat
      constructor <;>
        simp [summerize, hb1, hb2, hins, hfind, hfetch, hkey, hchat, mkResp]

theorem C2_witness :
    ((summerize ⟨"POST", some wBody1⟩ c2env).resp.status = 404 ∧
     (summerize ⟨"POST", some wBody1⟩ c2env).resp.body =
       some { error := some "Failed to fetch prompt from database",
              details := some noRowsMsg, url_id := some (.jnum 7) }) ∧
    ((summerize ⟨"POST", some wBody1⟩
        { wEnv1 with openaiKey := none }).resp.status = 500 ∧
     (summerize ⟨"POST", some wBody1⟩
        { wEnv1 with openaiKey := none }).resp.body =
       some { error := some "OpenAI API key not configured",
              url_id := some (.jnum 7) }) ∧
    ((summerize ⟨"POST", some wBody1⟩
        { wEnv1 with chat := .exn "boom" }).resp.status = 500 ∧
     (summerize ⟨"POST", some wBody1⟩
        { wEnv1 with chat := .exn "boom" }).resp.body =
       some { error := some "URL saved but AI processing failed",
              details := some "boom", url_id := some (.jnum 7),
              url := some "https://example.com",
              created_at := some "2024-01-01T00:00:00Z",
              processed := some false }) :=
  ⟨(C2_amended_partial_failure_fields wBody1 c2env wRow
      rfl rfl rfl).2.1 rfl,
   (C2_amended_partial_failure_fields wBody1
      { wEnv1 with openaiKey := none } wRow rfl rfl rfl).2.2.2.1
     wPrompt wHtml rfl rfl rfl,
   ((C2_amended_partial_failure_fields wBody1
      { wEnv1 with chat := .exn "boom" } wRow rfl rfl rfl).2.2.2.2
     wPrompt wHtml rfl rfl rfl).2 "boom" rfl⟩

/-- C6: in the Analyze-Existing flow, a url_id matching no stored UrlRecord
yields a 404 response, no url_summery insert is attempted, and no urls
insert happens either — the store is unchanged. -/
theorem C6_missing_url_404_no_write (b2 : Body2) (env2 : Env2)
    (hb1 : truthyOpt b2.url_id = true) (hb2 : truthyOpt b2.prompt_id = true)
    (hfind : env2.urls.find?
      (fun r => (b2.url_id.getD .jnull).matchesId r.id) = none) :
    (processUrl ⟨"POST", some b2⟩ env2).resp.status = 404 ∧
    (processUrl ⟨"POST", some b2⟩ env2).summeryWrite = none ∧
    (processUrl ⟨"POST", some b2⟩ env2).urlInsertTried = false := by
  refine ⟨?_, ?_, ?_⟩ <;> simp [processUrl, hb1, hb2, hfind, mkResp]

theorem C6_witness :
    (processUrl ⟨"POST", some wBody2⟩ { wEnv2 with urls := [] }).resp.status
      = 404 ∧
    (processUrl ⟨"POST", some wBody2⟩
      { wEnv2 with urls := [] }).summeryWrite = none ∧
    (processUrl ⟨"POST", some wBody2⟩
      { wEnv2 with urls := [] }).urlInsertTried = false :=
  C6_missing_url_404_no_write wBody2 { wEnv2 with urls := [] } rfl rfl rfl

/-- C7: whenever the completion call is reached, the request is exactly one
user message "{promptText}\n\nWebsite URL: {url}\nContent: {scrapedText}"
with model gpt-3.5-turbo, max_tokens 500 and temperature 0.7, in both
flows (in the Analyze-Existing flow the url is the stored row url). -/
theorem C7_completion_request_shape
    (b : Body1) (b2 : Body2) (row : UrlRow) (p : PromptRow) (html : String)
    (env : Env1) (env2 : Env2)
    (hb1 : truthyOpt b.url = true) (hb2 : truthyOpt b.prompt_id = true)
    (hins : env.insertResult = .ok row)
    (hfind : env.prompts.find?
      (fun q => (b.prompt_id.getD .jnull).matchesId q.id) = some p)
    (hfetch : env.fetch = .ok html) (hkey : keyTruthy env.openaiKey = true)
    (hc1 : truthyOpt b2.url_id = true) (hc2 : truthyOpt b2.prompt_id = true)
    (hurl : env2.urls.find?
      (fun r => (b2.url_id.getD .jnull).matchesId r.id) = some row)
    (hfind2 : env2.prompts.find?
      (fun q => (b2.prompt_id.getD .jnull).matchesId q.id) = some p)
    (hfetch2 : env2.fetch = .ok html)
    (hkey2 : keyTruthy env2.openaiKey = true) :
    (summerize ⟨"POST", some b⟩ env).chatReq = some
      { model := "gpt-3.5-turbo",
        messages :=
          [{ role := "user",
             content := p.prompt ++ "\n\nWebsite URL: " ++
               (b.url.getD .jnull).toStr ++ "\nContent: " ++
               extract html }],
        max_tokens := 500, temperature := 7 / 10 } ∧
    (processUrl ⟨"POST", some b2⟩ env2).chatReq = some
      { model := "gpt-3.5-turbo",
        messages :=
          [{ role := "user",
             content := p.prompt ++ "\n\nWebsite URL: " ++ row.url ++
               "\nContent: " ++ extract html }],
        max_tokens := 500, temperature := 7 / 10 } := by
  constructor
  · cases hchat : env.chat <;>
      simp [summerize, hb1, hb2, hins, hfind, hfetch, hkey, hchat, mkResp]
  · cases hchat : env2.chat <;>
      simp [processUrl, hc1, hc2, hurl, hfind2, hfetch2, hkey2, hchat,
        mkResp]

theorem C7_witness :
    (summerize ⟨"POST", some wBody1⟩ wEnv1).chatReq = some
      { model := "gpt-3.5-turbo",
        messages :=
          [{ role := "user",
             content := "Summarize this webpage" ++ "\n\nWebsite URL: " ++
               "https://example.com" ++ "\nContent: " ++
               extract wHtml }],
        max_tokens := 500, temperature := 7 / 10 } ∧
    (processUrl ⟨"POST", some wBody2⟩ wEnv2).chatReq = some
      { model := "gpt-3.5-turbo",
        messages :=
          [{ role := "user",
             content := "Summarize this webpage" ++ "\n\nWebsite URL: " ++
               "https://example.com" ++ "\nContent: " ++
               extract wHtml }],
        max_tokens := 500, temperature := 7 / 10 } :=
  C7_completion_request_shape wBody1 wBody2 wRow wPrompt wHtml wEnv1 wEnv2
    rfl rfl rfl rfl rfl rfl rfl rfl rfl rfl rfl rfl

/-- C3: for every input string the extracted text has length at most 8000,
and the identical bounded string `extract html` is both stored in the
url_summery scraped_data field and embedded in the completion user message,
in both flows. -/
theorem C3_bounded_scrape_stored_and_sent
    (b : Body1) (b2 : Body2) (row : UrlRow) (p : PromptRow) (html : String)
    (c : Option String) (env : Env1) (env2 : Env2)
    (hb1 : truthyOpt b.url = true) (hb2 : truthyOpt b.prompt_id = true)
    (hins : env.insertResult = .ok row)
    (hfind : env.prompts.find?
      (fun q => (b.prompt_id.getD .jnull).matchesId q.id) = some p)
    (hfetch : env.fetch = .ok html) (hkey : keyTruthy env.openaiKey = true)
    (hchat : env.chat = .ok c)
    (hc1 : truthyOpt b2.url_id = true) (hc2 : truthyOpt b2.prompt_id = true)
    (hurl : env2.urls.find?
      (fun r => (b2.url_id.getD .jnull).matchesId r.id) = some row)
    (hfind2 : env2.prompts.find?
      (fun q => (b2.prompt_id.getD .jnull).matchesId q.id) = some p)
    (hfetch2 : env2.fetch = .ok html)
    (hkey2 : keyTruthy env2.openaiKey = true)
    (hchat2 : env2.chat = .ok c) :
    (∀ s : String, (extract s).length ≤ 8000) ∧
    ((summerize ⟨"POST", some b⟩ env).summeryWrite = some
       { url_id := .jnum row.id, prompt_id := b.prompt_id.getD .jnull,
         scraped_data := extract html, ai_response := aiOutput c } ∧
     (summerize ⟨"POST", some b⟩ env).chatReq = some
       { model := "gpt-3.5-turbo",
         messages :=
           [{ role := "user",
              content := p.prompt ++ "\n\nWebsite URL: " ++
                (b.url.getD .jnull).toStr ++ "\nContent: " ++
                extract html }],
         max_tokens := 500, temperature := 7 / 10 }) ∧
    ((processUrl ⟨"POST", some b2⟩ env2).summeryWrite = some
       { url_id := b2.url_id.getD .jnull,
         prompt_id := b2.prompt_id.getD .jnull,
         scraped_data := extract html, ai_response := aiOutput c } ∧
     (processUrl ⟨"POST", some b2⟩ env2).chatReq = some
       { model := "gpt-3.5-turbo",
         messages :=
           [{ role := "user",
              content := p.prompt ++ "\n\nWebsite URL: " ++ row.url ++
                "\nContent: " ++ extract html }],
         max_tokens := 500, temperature := 7 / 10 }) := by
  refine ⟨fun s => extractL_length_le s.data, ⟨?_, ?_⟩, ⟨?_, ?_⟩⟩
  · simp [summerize, hb1, hb2, hins, hfind, hfetch, hkey, hchat, mkResp]
  · simp [summerize, hb1, hb2, hins, hfind, hfetch, hkey, hchat, mkResp]
  · simp [processUrl, hc1, hc2, hurl, hfind2, hfetch2, hkey2, hchat2,
      mkResp]
  · simp [processUrl, hc1, hc2, hurl, hfind2, hfetch2, hkey2, hchat2,
      mkResp]

theorem C3_witness :
    (extract "x y   z").length ≤ 8000 ∧
    (summerize ⟨"POST", some wBody1⟩ wEnv1).summeryWrite = some
      { url_id := .jnum 7, prompt_id := .jnum 3,
        scraped_data := extract wHtml, ai_response := "A short page." } ∧
    (processUrl ⟨"POST", some wBody2⟩ wEnv2).summeryWrite = some
      { url_id := .jnum 7, prompt_id := .jnum 3,
        scraped_data := extract wHtml, ai_response := "A short page." } :=
  ⟨(C3_bounded_scrape_stored_and_sent wBody1 wBody2 wRow wPrompt wHtml
      (some "A short page.") wEnv1 wEnv2 rfl rfl rfl rfl rfl rfl rfl rfl
      rfl rfl rfl rfl rfl rfl).1 "x y   z",
   (C3_bounded_scrape_stored_and_sent wBody1 wBody2 wRow wPrompt wHtml
      (some "A short page.") wEnv1 wEnv2 rfl rfl rfl rfl rfl rfl rfl rfl
      rfl rfl rfl rfl rfl rfl).2.1.1,
   (C3_bounded_scrape_stored_and_sent wBody1 wBody2 wRow wPrompt wHtml
      (some "A short page.") wEnv1 wEnv2 rfl rfl rfl rfl rfl rfl rfl rfl
      rfl rfl rfl rfl rfl rfl).2.2.1⟩

/-- C4: the text extractor is the six-stage transformation `extractL`
(script-block removal, style-block removal, tag removal, whitespace-run
collapse, trim, truncation to 8000 characters, in that order); for every
input its output contains no `<...>`-delimited tag and no run of more than
one consecutive whitespace character. -/
theorem C4_extractor_clean (l : List Char) :
    hasTag (extractL l) = false ∧ noWsPair (extractL l) = true := by
  constructor
  · exact hasTag_take _
      (hasTag_trimWs (hasTag_collapseWs _ (hasTag_removeTags _)))
  · exact noWsPair_take _ (noWsPair_trimWs (noWsPair_collapseWs _))

/-- C5 counterexample: at the 8001-character input c5x, extraction
truncates to 8000 characters ending in a space, and a second extraction
trims that space away, so extract (extract html) ≠ extract html — refuting
idempotence for every input. -/
theorem C5_counterexample : extractL (extractL c5x) ≠ extractL c5x := by
  rw [extractL_c5x, extractL_c5y]
  intro h
  have hlen := congrArg List.length h
  rw [c5y, List.length_append, List.length_replicate] at hlen
  simp at hlen

theorem C5_witness :
    (extractL ['a', ' ', 'b']).length < 8000 ∧
    extractL (extractL ['a', ' ', 'b']) = extractL ['a', ' ', 'b'] :=
  ⟨by decide, C5_amended_idempotent_below_cap ['a', ' ', 'b'] (by decide)⟩

/-- C8 counterexample: with a 2xx decodable completion body whose first
choice content is structurally present but equal to the empty string, the
pipeline output is the placeholder "No response generated" rather than that
content — the fallback triggers on any falsy value, not only on a
structurally absent one. -/
theorem C8_counterexample :
    ({ wEnv1 with chat := .ok (some "") } : Env1).chat = .ok (some "") ∧
    (summerize ⟨"POST", some wBody1⟩
      { wEnv1 with chat := .ok (some "") }).resp.body.bind (·.summary) =
      some "No response generated" ∧
    ("No response generated" : String) ≠ "" := by
  decide

/-- C8 (amended): on a 2xx decodable completion reply the model output is
the first choice content unless that content is structurally absent or the
empty string, in which cases the literal placeholder "No response
generated" is used; the pipeline then continues to the persist step with
that output, in both flows. -/
theorem C8_amended_first_choice_or_placeholder
    (b : Body1) (b2 : Body2) (row : UrlRow) (p : PromptRow) (html : String)
    (c : Option String) (env : Env1) (env2 : Env2)
    (hb1 : truthyOpt b.url = true) (hb2 : truthyOpt b.prompt_id = true)
    (hins : env.insertResult = .ok row)
    (hfind : env.prompts.find?
      (fun q => (b.prompt_id.getD .jnull).matchesId q.id) = some p)
    (hfetch : env.fetch = .ok html) (hkey : keyTruthy env.openaiKey = true)
    (hchat : env.chat = .ok c)
    (hc1 : truthyOpt b2.url_id = true) (hc2 : truthyOpt b2.prompt_id = true)
    (hurl : env2.urls.find?
      (fun r => (b2.url_id.getD .jnull).matchesId r.id) = some row)
    (hfind2 : env2.prompts.find?
      (fun q => (b2.prompt_id.getD .jnull).matchesId q.id) = some p)
    (hfetch2 : env2.fetch = .ok html)
    (hkey2 : keyTruthy env2.openaiKey = true)
    (hchat2 : env2.chat = .ok c) :
    ((summerize ⟨"POST", some b⟩ env).resp.body.bind (·.summary) =
       some (aiOutput c) ∧
     (summerize ⟨"POST", some b⟩ env).summeryWrite = some
       { url_id := .jnum row.id, prompt_id := b.prompt_id.getD .jnull,
         scraped_data := extract html, ai_response := aiOutput c }) ∧
    ((processUrl ⟨"POST", some b2⟩ env2).resp.body.bind (·.ai_response) =
       some (aiOutput c) ∧
     (processUrl ⟨"POST", some b2⟩ env2).summeryWrite = some
       { url_id := b2.url_id.getD .jnull,
         prompt_id := b2.prompt_id.getD .jnull,
         scraped_data := extract html, ai_response := aiOutput c }) ∧
    (∀ s : String, c = some s → s ≠ "" → aiOutput c = s) ∧
    (c = none ∨ c = some "" → aiOutput c = "No response generated") := by
  refine ⟨⟨?_, ?_⟩, ⟨?_, ?_⟩, ?_, ?_⟩
  · simp [summerize, hb1, hb2, hins, hfind, hfetch, hkey, hchat, mkResp]
  · simp [summerize, hb1, hb2, hins, hfind, hfetch, hkey, hchat, mkResp]
  · simp [processUrl, hc1, hc2, hurl, hfind2, hfetch2, hkey2, hchat2,
      mkResp]
  · simp [processUrl, hc1, hc2, hurl, hfind2, hfetch2, hkey2, hchat2,
      mkResp]
  · intro s hs hne
    subst hs
    simp [aiOutput, hne]
  · rintro (h | h) <;> subst h <;> simp [aiOutput]

theorem C8_witness :
    (summerize ⟨"POST", some wBody1⟩ wEnv1).resp.body.bind (·.summary) =
      some (aiOutput (some "A short page.")) ∧
    aiOutput (some "A short page.") = "A short page." :=
  ⟨(C8_amended_first_choice_or_placeholder wBody1 wBody2 wRow wPrompt wHtml
      (some "A short page.") wEnv1 wEnv2 rfl rfl rfl rfl rfl rfl rfl rfl
      rfl rfl rfl rfl rfl rfl).1.1,
   (C8_amended_first_choice_or_placeholder wBody1 wBody2 wRow wPrompt wHtml
      (some "A short page.") wEnv1 wEnv2 rfl rfl rfl rfl rfl rfl rfl rfl
      rfl rfl rfl rfl rfl rfl).2.2.1 "A short page." rfl (by decide)⟩

/-- C9: request-field validation uses JavaScript truthiness, so a present
but falsy url / prompt_id / url_id (the number 0 or the empty string)
produces exactly the same 400 "... is required" outcome as an absent
field; that outcome performs no store read or write and no outbound
network call (all effect flags of the Outcome are at their inert
defaults). -/
theorem C9_falsy_fields_rejected
    (v : JVal) (u pid : Option JVal) (env : Env1) (env2 : Env2)
    (hv : v.truthy = false) :
    (summerize ⟨"POST", some { url := some v, prompt_id := pid }⟩ env =
       { resp := mkResp 400 { error := some "URL is required" } } ∧
     summerize ⟨"POST", some { url := none, prompt_id := pid }⟩ env =
       { resp := mkResp 400 { error := some "URL is required" } }) ∧
    (truthyOpt u = true →
     summerize ⟨"POST", some { url := u, prompt_id := some v }⟩ env =
       { resp := mkResp 400 { error := some "prompt_id is required" } } ∧
     summerize ⟨"POST", some { url := u, prompt_id := none }⟩ env =
       { resp := mkResp 400 { error := some "prompt_id is required" } }) ∧
    (processUrl ⟨"POST", some { url_id := some v, prompt_id := pid }⟩ env2 =
       { resp := mkResp 400 { error := some "url_id is required" } } ∧
     processUrl ⟨"POST", some { url_id := none, prompt_id := pid }⟩ env2 =
       { resp := mkResp 400 { error := some "url_id is required" } }) ∧
    (truthyOpt u = true →
     processUrl ⟨"POST", some { url_id := u, prompt_id := some v }⟩ env2 =
       { resp := mkResp 400 { error := some "prompt_id is required" } } ∧
     processUrl ⟨"POST", some { url_id := u, prompt_id := none }⟩ env2 =
       { resp := mkResp 400 { error := some "prompt_id is required" } }) := by
  refine ⟨⟨?_, ?_⟩, fun hu => ⟨?_, ?_⟩, ⟨?_, ?_⟩, fun hu => ⟨?_, ?_⟩⟩ <;>
    simp [summerize, processUrl, truthyOpt_some, truthyOpt_none, hv, *]

theorem C9_witness :
    summerize
      ⟨"POST", some { url := some (.jnum 0), prompt_id := some (.jnum 3) }⟩
      wEnv1 =
      { resp := mkResp 400 { error := some "URL is required" } } ∧
    processUrl
      ⟨"POST", some { url_id := some (.jstr "x"),
                      prompt_id := some (.jstr "") }⟩ wEnv2 =
      { resp := mkResp 400 { error := some "prompt_id is required" } } :=
  ⟨(C9_falsy_fields_rejected (.jnum 0) (some (.jstr "x"))
      (some (.jnum 3)) wEnv1 wEnv2 rfl).1.1,
   ((C9_falsy_fields_rejected (.jstr "") (some (.jstr "x"))
      (some (.jnum 3)) wEnv1 wEnv2 rfl).2.2.2 rfl).1⟩

/-- C10: an OPTIONS request to either endpoint yields status 200, a null
body and CORS headers allowing all origins, with no store or network side
effect. -/
theorem C10_options_preflight (rb : Option Body1) (rb2 : Option Body2)
    (env : Env1) (env2 : Env2) :
    summerize ⟨"OPTIONS", rb⟩ env = optionsOutcome ∧
    processUrl ⟨"OPTIONS", rb2⟩ env2 = optionsOutcome ∧
    optionsOutcome.resp.status = 200 ∧
    optionsOutcome.resp.body = none ∧
    optionsOutcome.resp.corsOrigin = some "*" ∧
    optionsOutcome.urlInsertTried = false ∧
    optionsOutcome.urlsRead = false ∧
    optionsOutcome.promptsRead = false ∧
    optionsOutcome.fetchTried = false ∧
    optionsOutcome.chatReq = none ∧
    optionsOutcome.summeryWrite = none := by
  refine ⟨?_, ?_, rfl, rfl, rfl, rfl, rfl, rfl, rfl, rfl, rfl⟩ <;>
    simp [summerize, processUrl]

end UrlSummeriser
